import Mathlib

/-!
Verification of the reconciliation engine of the charmed 5G UPF operator.

The development shallowly embeds the two source files:
* src/charm.py — the bessd configuration reconciler (_configure_bessd_workload),
  the bootstrap runner (_run_bess_configuration), and the status pipeline
  (_on_bessd_pebble_ready / _set_unit_status / _is_cpu_compatible);
* src/kubernetes_multus.py — the Multus attachment reconciler (_patch,
  patch_statefulset, statefulset_is_patched, _on_remove).

Observed in-container / in-cluster state is made explicit as records, and each
reconciliation routine is a pure function from desired configuration and
observed state to a new state plus a trace of the side effects it issues.
-/

namespace Upf

/-- UPF mode from charm config (charm_config.UpfMode): af_packet ("normal") or dpdk. -/
inductive UpfMode where
  | normal
  | dpdk
deriving DecidableEq, Repr

/-- The fields of the validated charm configuration (charm_config.CharmConfig)
consumed by the routines modelled here.  IP/gateway/subnet values are kept as
strings, exactly as they are interpolated into commands in charm.py. -/
structure UpfConfig where
  upf_hostname : String
  upf_mode : UpfMode
  dnn : String
  enable_hw_checksum : Bool
  core_ip : String
  core_gateway_ip : String
  access_gateway_ip : String
  gnb_subnet : String
deriving DecidableEq, Repr

/-- charm.py: ACCESS_INTERFACE_NAME. -/
def ACCESS_INTERFACE_NAME : String := "access"

/-- charm.py: CORE_INTERFACE_NAME. -/
def CORE_INTERFACE_NAME : String := "core"

/-- charm.py: POD_SHARE_PATH. -/
def POD_SHARE_PATH : String := "/pod-share"

/-- charm.py: BESSD_CONTAINER_CONFIG_PATH. -/
def BESSD_CONTAINER_CONFIG_PATH : String := "/etc/bess/conf"

/-- charm.py: CONFIG_FILE_NAME. -/
def CONFIG_FILE_NAME : String := "upf.json"

/-- charm.py: BESSD_PORT. -/
def BESSD_PORT : Nat := 10514

/-- charm.py: REQUIRED_CPU_EXTENSIONS. -/
def REQUIRED_CPU_EXTENSIONS : List String := ["avx2", "rdrand"]

/-- charm.py: REQUIRED_CPU_EXTENSIONS_HUGEPAGES. -/
def REQUIRED_CPU_EXTENSIONS_HUGEPAGES : List String := ["pdpe1gb"]

/-- Modelled from the spec: the jinja template src/templates/upf.json.j2 that
render_bessd_config_file instantiates is not under src/.  The spec describes
the rendered document as a byte-exact structure that is a pure function of
{hostname, mode, interface names, core IP, DNN, shared-path, checksum-flag},
with a hwcksum field that is read back and compared for equality.  We model
the document as a record of exactly those fields. -/
structure RenderedConfig where
  upf_hostname : String
  mode : UpfMode
  access_interface_name : String
  core_interface_name : String
  core_ip_address : String
  dnn : String
  pod_share_path : String
  hwcksum : Bool
deriving DecidableEq, Repr

/-- charm.py: render_bessd_config_file (the template fill-in is modelled as the
record above; the arguments are the same). -/
def render_bessd_config_file (upf_hostname : String) (upf_mode : UpfMode)
    (access_interface_name core_interface_name : String) (core_ip_address : String)
    (dnn : String) (pod_share_path : String) (enable_hw_checksum : Bool) : RenderedConfig :=
  { upf_hostname := upf_hostname
  , mode := upf_mode
  , access_interface_name := access_interface_name
  , core_interface_name := core_interface_name
  , core_ip_address := core_ip_address
  , dnn := dnn
  , pod_share_path := pod_share_path
  , hwcksum := enable_hw_checksum }

/-- charm.py line 564: core_ip_address.split("/")[0] if core_ip_address else "". -/
def core_ip_first_component (core_ip : String) : String :=
  if core_ip = "" then "" else (core_ip.splitOn "/").headD ""

/-- The document _configure_bessd_workload renders for a given desired
configuration (charm.py lines 559-568). -/
def desired_config (cfg : UpfConfig) : RenderedConfig :=
  render_bessd_config_file cfg.upf_hostname cfg.upf_mode ACCESS_INTERFACE_NAME
    CORE_INTERFACE_NAME (core_ip_first_component cfg.core_ip) cfg.dnn POD_SHARE_PATH
    cfg.enable_hw_checksum

/-- One pebble service entry as compared by plan.services != layer.services. -/
structure ServiceSpec where
  override : String
  startup : String
  command : String
  environment : List (String × String)
deriving DecidableEq, Repr

/-- The services of the bessd pebble layer (the checks stanza takes no part in
the plan.services != layer.services comparison and is omitted). -/
structure BessdServices where
  routectl : ServiceSpec
  bessd : ServiceSpec
deriving DecidableEq, Repr

/-- charm.py: _hugepages_is_enabled. -/
def hugepages_is_enabled (cfg : UpfConfig) : Bool :=
  cfg.upf_mode = UpfMode.dpdk

/-- charm.py: _generate_bessd_startup_command (note the trailing space kept by
the f-string when hugepages are enabled). -/
def generate_bessd_startup_command (cfg : UpfConfig) : String :=
  let hugepages_cmd := if hugepages_is_enabled cfg then "" else "-m 0"
  "/bin/bessd -f -grpc-url=0.0.0.0:" ++ toString BESSD_PORT ++ " " ++ hugepages_cmd

/-- charm.py: _bessd_environment_variables. -/
def bessd_environment_variables : List (String × String) :=
  [("CONF_FILE", BESSD_CONTAINER_CONFIG_PATH ++ "/" ++ CONFIG_FILE_NAME),
   ("PYTHONPATH", "/opt/bess")]

/-- charm.py: _routectl_environment_variables. -/
def routectl_environment_variables : List (String × String) :=
  [("PYTHONPATH", "/opt/bess"), ("PYTHONUNBUFFERED", "1")]

/-- charm.py: _bessd_pebble_layer, services part. -/
def bessd_pebble_layer (cfg : UpfConfig) : BessdServices :=
  { routectl :=
      { override := "replace"
      , startup := "enabled"
      , command := "/opt/bess/bessctl/conf/route_control.py -i " ++ ACCESS_INTERFACE_NAME
          ++ " " ++ CORE_INTERFACE_NAME
      , environment := routectl_environment_variables }
  , bessd :=
      { override := "replace"
      , startup := "enabled"
      , command := generate_bessd_startup_command cfg
      , environment := bessd_environment_variables } }

/-- Observed state of the bessd container as read and written by
_configure_bessd_workload: the stored config document (none when the file is
absent, so a pull raises PathError), the pebble plan services, the two routes,
the iptables rule and the bessctl-executed marker file. -/
structure BessdState where
  config_file : Option RenderedConfig
  plan_services : Option BessdServices
  default_route : Option String
  ran_route : Option (String × String)
  iptables_rule : Bool
  marker : Bool
deriving DecidableEq, Repr

/-- charm.py: _bessd_config_file_is_written (container.exists on the path). -/
def bessd_config_file_is_written (st : BessdState) : Bool :=
  st.config_file.isSome

/-- charm.py: _bessd_config_file_content_matches (pull and byte-compare).  Only
called when the file exists. -/
def bessd_config_file_content_matches (content : RenderedConfig) (st : BessdState) : Bool :=
  decide (st.config_file = some content)

/-- charm.py: _hwcksum_config_matches_pod_config.  Pulls the stored document
(PathError when absent yields the empty dict, whose hwcksum lookup is None and
thus unequal to any boolean) and returns True when the stored hwcksum value
DIFFERS from the desired flag. -/
def hwcksum_config_matches_pod_config (cfg : UpfConfig) (st : BessdState) : Bool :=
  match st.config_file with
  | none => true
  | some doc => doc.hwcksum != cfg.enable_hw_checksum

/-- charm.py: the retry budget of _run_bess_configuration (300 seconds). -/
def bessctlTimeoutBudget : Nat := 300

/-- charm.py: the sleep between failed attempts in _run_bess_configuration. -/
def bessctlRetryInterval : Nat := 2

/-- Outcome of _run_bess_configuration: done carries how many times the
bessctl command was executed and whether the marker file was created; the
timeoutError constructor is the raised TimeoutError (no marker created). -/
inductive BessResult where
  | done (execCount : Nat) (markerCreated : Bool)
  | timeoutError (execCount : Nat)
deriving DecidableEq, Repr

/-- The while-loop of _run_bess_configuration.  Time is counted in seconds:
each failed attempt sleeps bessctlRetryInterval, so elapsed time equals
bessctlRetryInterval * attempt and the loop condition elapsed <= 300 holds for
exactly bessctlTimeoutBudget / bessctlRetryInterval + 1 iterations, which the
caller passes as iters.  The argument f tells whether the shell command of
attempt n succeeds (false models ExecError). -/
def runBessLoop (f : Nat → Bool) (marker : Bool) : Nat → Nat → BessResult
  | attempt, 0 => BessResult.timeoutError attempt
  | attempt, iters + 1 =>
    if marker then BessResult.done attempt false
    else if f attempt then BessResult.done (attempt + 1) true
    else runBessLoop f marker (attempt + 1) iters

/-- charm.py: _run_bess_configuration.  marker is whether
_is_bessctl_executed holds at entry (the file outside persistent storage). -/
def run_bess_configuration (f : Nat → Bool) (marker : Bool) : BessResult :=
  runBessLoop f marker 0 (bessctlTimeoutBudget / bessctlRetryInterval + 1)

/-- The side effects _configure_bessd_workload can issue against the cluster
and the bessd container, in the order the code issues them. -/
inductive Effect where
  | writeConfigFile (doc : RenderedConfig)
  | routeReplaceDefault (gateway : String)
  | routeReplaceRan (subnet gateway : String)
  | iptablesCheck
  | iptablesInsert
  | addLayer (services : BessdServices)
  | deletePod
  | restart (service : String)
  | bessExec
  | writeMarker
deriving DecidableEq, Repr

/-- The restart / pod-replacement effects of the final dispatch of
_configure_bessd_workload (lines 585-592). -/
def Effect.isRestartOrDelete : Effect → Bool
  | Effect.restart _ => true
  | Effect.deletePod => true
  | _ => false

/-- Whether the bootstrap runner created the marker. -/
def bessResultMarker : BessResult → Bool
  | BessResult.done _ m => m
  | BessResult.timeoutError _ => false

/-- Whether the bootstrap runner raised TimeoutError. -/
def bessResultTimedOut : BessResult → Bool
  | BessResult.timeoutError _ => true
  | BessResult.done _ _ => false

/-- The effect trace of the bootstrap runner: one bessExec per command
execution, plus the marker write after a successful execution. -/
def bessResultEffects : BessResult → List Effect
  | BessResult.done k true => List.replicate k Effect.bessExec ++ [Effect.writeMarker]
  | BessResult.done k false => List.replicate k Effect.bessExec
  | BessResult.timeoutError k => List.replicate k Effect.bessExec

/-- Result of one invocation of _configure_bessd_workload: the observed state
a NEXT invocation will find, the trace of issued side effects, and whether the
trailing bootstrap runner raised TimeoutError. -/
structure ConfigureResult where
  state : BessdState
  effects : List Effect
  timedOut : Bool
deriving DecidableEq, Repr

/-- The observed state after the supervising statefulset has replaced a
deleted pod.  Pod replacement destroys the container state: the pebble plan,
the routes and the iptables rule live in the container and its network
namespace, and the bootstrap marker is deliberately created outside the
persistent storage volume so that on container restart the bessd
configuration runs again (charm.py lines 638-643; the spec resets the
bootstrap runner to NotStarted on a fresh container instance).  Only the
config file, written under the attached storage path, survives. -/
def pod_recreated_view (st : BessdState) : BessdState :=
  { config_file := st.config_file
  , plan_services := none
  , default_route := none
  , ran_route := none
  , iptables_rule := false
  , marker := false }

/-- charm.py: _configure_bessd_workload (lines 551-593) followed by its
unconditional call of _run_bess_configuration.  Mirrors the code line by
line: render; write the file if absent or different (checking the stored
hwcksum first and requesting pod recreation on mismatch); issue the two
idempotent ip route replace commands unconditionally; probe the iptables rule
and insert it only if the probe fails; add the pebble layer if the plan
services differ; then delete the pod if recreation was requested, else
restart routectl then bessd if a restart was requested; finally run the
bootstrap.  When the pod was deleted, the state a next invocation observes is
the pod_recreated_view: the in-container writes of this pass (layer, routes,
rule, marker) die with the replaced pod and only the config file, on the
storage volume, survives. -/
def configure_bessd_workload (cfg : UpfConfig) (f : Nat → Bool) (st : BessdState) :
    ConfigureResult :=
  let content := desired_config cfg
  let fileOk := bessd_config_file_is_written st
      && bessd_config_file_content_matches content st
  let recreate_pod := !fileOk && hwcksum_config_matches_pod_config cfg st
  let restart1 := !fileOk
  let st1 := if fileOk then st else { st with config_file := some content }
  let eff1 : List Effect := if fileOk then [] else [Effect.writeConfigFile content]
  let st2 := { st1 with default_route := some cfg.core_gateway_ip }
  let eff2 : List Effect := [Effect.routeReplaceDefault cfg.core_gateway_ip]
  let st3 := { st2 with ran_route := some (cfg.gnb_subnet, cfg.access_gateway_ip) }
  let eff3 : List Effect := [Effect.routeReplaceRan cfg.gnb_subnet cfg.access_gateway_ip]
  let ruleOk := st3.iptables_rule
  let st4 := { st3 with iptables_rule := true }
  let eff4 : List Effect :=
    if ruleOk then [Effect.iptablesCheck] else [Effect.iptablesCheck, Effect.iptablesInsert]
  let layer := bessd_pebble_layer cfg
  let planOk := decide (st4.plan_services = some layer)
  let st5 := if planOk then st4 else { st4 with plan_services := some layer }
  let eff5 : List Effect := if planOk then [] else [Effect.addLayer layer]
  let restart2 := restart1 || !planOk
  let eff6 : List Effect :=
    if recreate_pod then [Effect.deletePod]
    else if restart2 then [Effect.restart "routectl", Effect.restart "bessd"]
    else []
  let br := run_bess_configuration f st5.marker
  let st6 := { st5 with marker := st5.marker || bessResultMarker br }
  { state := if recreate_pod then pod_recreated_view st6 else st6
  , effects := eff1 ++ eff2 ++ eff3 ++ eff4 ++ eff5 ++ eff6 ++ bessResultEffects br
  , timedOut := bessResultTimedOut br }

/-- The observed bessd-container state with nothing yet applied: no config
file, no pebble layer, no routes, no firewall rule, no marker. -/
def emptyBessdState : BessdState :=
  { config_file := none
  , plan_services := none
  , default_route := none
  , ran_route := none
  , iptables_rule := false
  , marker := false }

/-- The observed bessd-container state right after a pod-deleting first pass:
the config file (persistent storage) holds the rendered document, while the
pebble plan, routes, firewall rule and marker were lost with the replaced
pod. -/
def recreatedBessdState (cfg : UpfConfig) : BessdState :=
  { config_file := some (desired_config cfg)
  , plan_services := none
  , default_route := none
  , ran_route := none
  , iptables_rule := false
  , marker := false }

/-- The observed bessd-container state after a pass converged on cfg: the
stored document and pebble services match the desired ones, both routes point
at the configured gateways, the firewall rule exists and the bootstrap marker
is present. -/
def convergedBessdState (cfg : UpfConfig) : BessdState :=
  { config_file := some (desired_config cfg)
  , plan_services := some (bessd_pebble_layer cfg)
  , default_route := some cfg.core_gateway_ip
  , ran_route := some (cfg.gnb_subnet, cfg.access_gateway_ip)
  , iptables_rule := true
  , marker := true }

/-- The unit status values set by the charm (ops.model statuses). -/
inductive UnitStatus where
  | blocked (msg : String)
  | waiting (msg : String)
  | active
deriving DecidableEq, Repr

/-- Facts about the node read by _is_cpu_compatible: the lscpu flag list and
whether the cluster nodes have enough 1Gi HugePages allocatable. -/
structure NodeFacts where
  cpu_extensions : List String
  hugepages_available : Bool
deriving DecidableEq, Repr

/-- Per-service liveness facts as reported by service_is_running_on_container
(false also stands for an unreachable container, which the source collapses
into the same signal). -/
structure Liveness where
  bessd : Bool
  routectl : Bool
  pfcp_agent : Bool
deriving DecidableEq, Repr

/-- charm.py: _is_cpu_compatible (with _cpu_is_compatible_for_hugepages and
_hugepages_are_available inlined as their observed facts).  Returns the
Blocked status the function sets when the gate fails, none when it passes. -/
def is_cpu_compatible (cfg : UpfConfig) (n : NodeFacts) : Option UnitStatus :=
  if !(REQUIRED_CPU_EXTENSIONS.all fun e => n.cpu_extensions.contains e) then
    some (UnitStatus.blocked
      ("Please use a CPU that has the following capabilities: "
        ++ String.intercalate ", " REQUIRED_CPU_EXTENSIONS))
  else if hugepages_is_enabled cfg then
    if !(REQUIRED_CPU_EXTENSIONS_HUGEPAGES.all fun e => n.cpu_extensions.contains e) then
      some (UnitStatus.blocked
        ("Please use a CPU that has the following capabilities: "
          ++ String.intercalate ", "
              (REQUIRED_CPU_EXTENSIONS ++ REQUIRED_CPU_EXTENSIONS_HUGEPAGES)))
    else if !n.hugepages_available then
      some (UnitStatus.blocked "Not enough HugePages available")
    else none
  else none

/-- charm.py: _set_unit_status (lines 717-730). -/
def set_unit_status (l : Liveness) : UnitStatus :=
  if !l.bessd then UnitStatus.waiting "Waiting for bessd service to run"
  else if !l.routectl then UnitStatus.waiting "Waiting for routectl service to run"
  else if !l.pfcp_agent then UnitStatus.waiting "Waiting for pfcp agent service to run"
  else UnitStatus.active

/-- charm.py: the status decision of _on_bessd_pebble_ready (lines 517-536):
capability gate, then Multus readiness, then storage, then the liveness
checks of _set_unit_status.  The configuration work between the storage check
and _set_unit_status does not alter which verdict is chosen. -/
def bessd_pebble_ready_status (cfg : UpfConfig) (n : NodeFacts)
    (multus_ready storage_attached : Bool) (l : Liveness) : UnitStatus :=
  match is_cpu_compatible cfg n with
  | some s => s
  | none =>
    if !multus_ready then UnitStatus.waiting "Waiting for Multus to be ready"
    else if !storage_attached then UnitStatus.waiting "Waiting for storage to be attached"
    else set_unit_status l

/-- kubernetes_multus.py: a NetworkAttachmentDefinition object (metadata name
plus the opaque serialized spec config). -/
structure NetworkAttachmentDefinition where
  name : String
  config : String
deriving DecidableEq, Repr

/-- kubernetes_multus.py: the dict() projection of a NetworkAnnotation as it
is serialized into the statefulset annotation value. -/
structure AnnotationDict where
  name : String
  interface : String
  ips : Option (List String)
deriving DecidableEq, Repr

/-- A container of the statefulset pod template: name and its
securityContext.capabilities.add list. -/
structure K8sContainer where
  name : String
  capabilities_add : List String
deriving DecidableEq, Repr

/-- The statefulset pod template as touched by the Multus reconciler: the
parsed k8s.v1.cni.cncf.io/networks annotation value (none when the key is
absent; the json dumps/loads round trip is the identity on the structured
value), the other template annotations, and the containers. -/
structure PodTemplate where
  networks : Option (List AnnotationDict)
  other_annotations : List (String × String)
  containers : List K8sContainer
deriving DecidableEq, Repr

/-- Cluster state seen by the Multus reconciler: the existing
NetworkAttachmentDefinition objects and the statefulset pod template. -/
structure MultusState where
  nads : List NetworkAttachmentDefinition
  statefulset : PodTemplate
deriving DecidableEq, Repr

/-- The writes the Multus reconciler can issue. -/
inductive MultusEffect where
  | createNad (nad : NetworkAttachmentDefinition)
  | patchStatefulSet
  | deleteNad (name : String)
deriving DecidableEq, Repr

/-- The configuration of KubernetesMultusCharmLib. -/
structure MultusLib where
  network_attachment_definitions : List NetworkAttachmentDefinition
  network_annotations : List AnnotationDict
  containers_requiring_net_admin_capability : List String
deriving DecidableEq, Repr

/-- kubernetes_multus.py: network_attachment_definition_is_created, restricted
to the two modelled outcomes (found, or the NotFound ApiError). -/
def hasNad (nads : List NetworkAttachmentDefinition) (x : String) : Bool :=
  nads.any fun n => n.name == x

/-- The NAD loop of KubernetesMultusCharmLib._patch: check each desired
definition and create it when the existence check reports NotFound. -/
def createMissingNads :
    List NetworkAttachmentDefinition → List NetworkAttachmentDefinition →
    List NetworkAttachmentDefinition × List MultusEffect
  | nads, [] => (nads, [])
  | nads, d :: ds =>
    if hasNad nads d.name then createMissingNads nads ds
    else
      let r := createMissingNads (nads ++ [d]) ds
      (r.1, MultusEffect.createNad d :: r.2)

/-- kubernetes_multus.py: get_container_index_from_name, specialised to update
the first container with the given name (raising, as the source does, when no
container carries the name).  patch_statefulset then REPLACES the securityContext.capabilities of that container with Capabilities(add=["NET_ADMIN"]). -/
def setNetAdminFirst : List K8sContainer → String → Except String (List K8sContainer)
  | [], c => Except.error ("No container named " ++ c ++ " in statefulset")
  | k :: ks, c =>
    if k.name == c then Except.ok ({ k with capabilities_add := ["NET_ADMIN"] } :: ks)
    else
      match setNetAdminFirst ks c with
      | Except.error e => Except.error e
      | Except.ok ks1 => Except.ok (k :: ks1)

/-- The capability loop of patch_statefulset over the named containers. -/
def applyNetAdmin : List K8sContainer → List String → Except String (List K8sContainer)
  | ks, [] => Except.ok ks
  | ks, c :: rest =>
    match setNetAdminFirst ks c with
    | Except.error e => Except.error e
    | Except.ok ks1 => applyNetAdmin ks1 rest

/-- kubernetes_multus.py: patch_statefulset (lines 203-241).  Empty annotation
list short-circuits without issuing a patch; otherwise the annotation value is
set and the capability list of each named container is replaced, then one merge
patch is issued. -/
def patch_statefulset (tmpl : PodTemplate) (annots : List AnnotationDict)
    (caps : List String) : Except String (PodTemplate × List MultusEffect) :=
  if annots.isEmpty then Except.ok (tmpl, [])
  else
    match applyNetAdmin tmpl.containers caps with
    | Except.error e => Except.error e
    | Except.ok ks =>
      Except.ok ({ tmpl with networks := some annots, containers := ks },
        [MultusEffect.patchStatefulSet])

/-- The capabilities of the first container with the given name. -/
def capsOf (ks : List K8sContainer) (c : String) : Option (List String) :=
  (ks.find? fun k => k.name == c).map K8sContainer.capabilities_add

/-- The capability check loop of statefulset_is_patched. -/
def capsAllNetAdmin (ks : List K8sContainer) : List String → Except String Bool
  | [] => Except.ok true
  | c :: rest =>
    match ks.find? fun k => k.name == c with
    | none => Except.error ("No container named " ++ c ++ " in statefulset")
    | some k =>
      if k.capabilities_add.contains "NET_ADMIN" then capsAllNetAdmin ks rest
      else Except.ok false

/-- kubernetes_multus.py: statefulset_is_patched (lines 243-283). -/
def statefulset_is_patched (tmpl : PodTemplate) (annots : List AnnotationDict)
    (caps : List String) : Except String Bool :=
  match tmpl.networks with
  | none => Except.ok false
  | some existing =>
    if existing = annots then capsAllNetAdmin tmpl.containers caps
    else Except.ok false

/-- kubernetes_multus.py: KubernetesMultusCharmLib._patch (lines 310-333). -/
def multus_patch (lib : MultusLib) (st : MultusState) :
    Except String (MultusState × List MultusEffect) :=
  let r := createMissingNads st.nads lib.network_attachment_definitions
  match statefulset_is_patched st.statefulset lib.network_annotations
      lib.containers_requiring_net_admin_capability with
  | Except.error e => Except.error e
  | Except.ok true => Except.ok ({ st with nads := r.1 }, r.2)
  | Except.ok false =>
    match patch_statefulset st.statefulset lib.network_annotations
        lib.containers_requiring_net_admin_capability with
    | Except.error e => Except.error e
    | Except.ok (tmpl2, eff2) =>
      Except.ok ({ nads := r.1, statefulset := tmpl2 }, r.2 ++ eff2)

/-- The NAD loop of KubernetesMultusCharmLib._on_remove: delete each desired
definition only when the existence check finds it. -/
def removeNads :
    List NetworkAttachmentDefinition → List NetworkAttachmentDefinition →
    List NetworkAttachmentDefinition × List MultusEffect
  | nads, [] => (nads, [])
  | nads, d :: ds =>
    if hasNad nads d.name then
      let r := removeNads (nads.filter fun n => !(n.name == d.name)) ds
      (r.1, MultusEffect.deleteNad d.name :: r.2)
    else removeNads nads ds

/-- kubernetes_multus.py: KubernetesMultusCharmLib._on_remove (lines 335-348). -/
def multus_on_remove (lib : MultusLib) (st : MultusState) :
    MultusState × List MultusEffect :=
  let r := removeNads st.nads lib.network_attachment_definitions
  ({ st with nads := r.1 }, r.2)

/-- A concrete desired configuration (the default charm config values):
normal mode, hardware checksum disabled. -/
def cfg0 : UpfConfig :=
  { upf_hostname := "upf-external.sdcore.svc.cluster.local"
  , upf_mode := UpfMode.normal
  , dnn := "internet"
  , enable_hw_checksum := false
  , core_ip := "192.168.250.3/24"
  , core_gateway_ip := "192.168.250.1"
  , access_gateway_ip := "192.168.252.1"
  , gnb_subnet := "192.168.251.0/24" }

/-- A node passing the capability gate for cfg0. -/
def goodNode : NodeFacts :=
  { cpu_extensions := ["avx2", "rdrand", "pdpe1gb"], hugepages_available := true }

/-- A node failing the capability gate (missing CPU extensions). -/
def badNode : NodeFacts :=
  { cpu_extensions := ["sse2"], hugepages_available := true }

/-- Observed state whose stored document was rendered from cfg0 with the
opposite checksum flag (only the checksum flag changed between passes). -/
def c3St : BessdState :=
  { config_file := some (desired_config { cfg0 with enable_hw_checksum := !cfg0.enable_hw_checksum })
  , plan_services := some (bessd_pebble_layer cfg0)
  , default_route := some cfg0.core_gateway_ip
  , ran_route := some (cfg0.gnb_subnet, cfg0.access_gateway_ip)
  , iptables_rule := true
  , marker := true }

/-- Observed state whose stored document was rendered from cfg0 with a
different DNN (only the DNN changed between passes). -/
def c4St : BessdState :=
  { config_file := some (desired_config { cfg0 with dnn := "ims" })
  , plan_services := some (bessd_pebble_layer cfg0)
  , default_route := some cfg0.core_gateway_ip
  , ran_route := some (cfg0.gnb_subnet, cfg0.access_gateway_ip)
  , iptables_rule := true
  , marker := true }

/-- A concrete Multus reconciler configuration: two attachment definitions,
two network annotations, one container requiring NET_ADMIN. -/
def c7Lib : MultusLib :=
  { network_attachment_definitions :=
      [{ name := "access-net", config := "cfg-a" }, { name := "core-net", config := "cfg-c" }]
  , network_annotations :=
      [{ name := "access-net", interface := "access", ips := none },
       { name := "core-net", interface := "core", ips := none }]
  , containers_requiring_net_admin_capability := ["bessd"] }

/-- Cluster state before the first reconciliation pass for c7Lib. -/
def c7St0 : MultusState :=
  { nads := []
  , statefulset :=
      { networks := none
      , other_annotations := [("apparmor", "unconfined")]
      , containers :=
          [{ name := "bessd", capabilities_add := [] },
           { name := "pfcp-agent", capabilities_add := [] }] } }

/-- Cluster state after the first reconciliation pass for c7Lib on c7St0. -/
def c7St1 : MultusState :=
  { nads :=
      [{ name := "access-net", config := "cfg-a" }, { name := "core-net", config := "cfg-c" }]
  , statefulset :=
      { networks :=
          some [{ name := "access-net", interface := "access", ips := none },
                { name := "core-net", interface := "core", ips := none }]
      , other_annotations := [("apparmor", "unconfined")]
      , containers :=
          [{ name := "bessd", capabilities_add := ["NET_ADMIN"] },
           { name := "pfcp-agent", capabilities_add := [] }] } }

/-- A second concrete Multus reconciler configuration (single definition, no
capability containers). -/
def c2Lib : MultusLib :=
  { network_attachment_definitions := [{ name := "n2-net", config := "cfg-n2" }]
  , network_annotations := [{ name := "n2-net", interface := "n2", ips := some ["10.0.0.5/24"] }]
  , containers_requiring_net_admin_capability := [] }

/-- Cluster state before the first pass for c2Lib. -/
def c2St0 : MultusState :=
  { nads := []
  , statefulset := { networks := none, other_annotations := [], containers := [] } }

/-- Cluster state after the first pass for c2Lib on c2St0. -/
def c2St1 : MultusState :=
  { nads := [{ name := "n2-net", config := "cfg-n2" }]
  , statefulset :=
      { networks := some [{ name := "n2-net", interface := "n2", ips := some ["10.0.0.5/24"] }]
      , other_annotations := []
      , containers := [] } }

/-- A pod template whose container already carries a capability other than
NET_ADMIN. -/
def c8Tmpl : PodTemplate :=
  { networks := none
  , other_annotations := [("keep", "me")]
  , containers := [{ name := "bessd", capabilities_add := ["SYS_TIME"] }] }

/-- A single desired annotation for the c8 scenario. -/
def c8Annots : List AnnotationDict :=
  [{ name := "access-net", interface := "access", ips := none }]

/-- The pod template produced by patching c8Tmpl with c8Annots. -/
def c8Patched : PodTemplate :=
  { networks := some c8Annots
  , other_annotations := [("keep", "me")]
  , containers := [{ name := "bessd", capabilities_add := ["NET_ADMIN"] }] }

/-- A Multus configuration whose attachment definition does not exist in the
cluster state c9St. -/
def c9Lib : MultusLib :=
  { network_attachment_definitions := [{ name := "gone-net", config := "cfg-g" }]
  , network_annotations := []
  , containers_requiring_net_admin_capability := [] }

/-- Cluster state not containing the c9Lib attachment definition. -/
def c9St : MultusState :=
  { nads := [{ name := "other-net", config := "cfg-o" }]
  , statefulset := { networks := none, other_annotations := [], containers := [] } }

/-! Helper lemmas about the bootstrap runner. -/

theorem runBess_marker (f : Nat → Bool) :
    run_bess_configuration f true = BessResult.done 0 false := rfl

theorem runBess_first_success (f : Nat → Bool) (h : f 0 = true) :
    run_bess_configuration f false = BessResult.done 1 true := by
  show runBessLoop f false 0 151 = BessResult.done 1 true
  rw [show (151 : Nat) = 150 + 1 from rfl]
  simp [runBessLoop, h]

theorem runBess_allFail (f : Nat → Bool) (h : ∀ n, f n = false) :
    ∀ iters attempt, runBessLoop f false attempt iters = BessResult.timeoutError (attempt + iters)
  | 0, attempt => rfl
  | iters + 1, attempt => by
    rw [runBessLoop]
    simp [h attempt]
    rw [runBess_allFail f h iters (attempt + 1)]
    congr 1
    omega

theorem runBessLoop_done_true (f : Nat → Bool) :
    ∀ iters marker attempt k, runBessLoop f marker attempt iters = BessResult.done k true →
      attempt < k ∧ f (k - 1) = true := by
  intro iters
  induction iters with
  | zero => intro marker attempt k h; simp [runBessLoop] at h
  | succ n ih =>
    intro marker attempt k h
    rw [runBessLoop] at h
    cases marker with
    | true => simp at h
    | false =>
      by_cases hfa : f attempt = true
      · simp [hfa] at h
        subst h
        exact ⟨by omega, by simpa using hfa⟩
      · simp [hfa] at h
        have hk := ih false (attempt + 1) k h
        exact ⟨by omega, hk.2⟩

theorem filter_replicate_bessExec (k : Nat) :
    (List.replicate k Effect.bessExec).filter Effect.isRestartOrDelete = [] := by
  induction k with
  | zero => rfl
  | succ n ih => simp [List.replicate_succ, List.filter_cons, ih, Effect.isRestartOrDelete]

theorem bessResultEffects_filter (br : BessResult) :
    (bessResultEffects br).filter Effect.isRestartOrDelete = [] := by
  cases br with
  | done k m =>
    cases m <;>
      simp [bessResultEffects, List.filter_append, filter_replicate_bessExec,
        Effect.isRestartOrDelete, List.filter_cons]
  | timeoutError k => simp [bessResultEffects, filter_replicate_bessExec]

/-! Helper lemmas about the configuration reconciler. -/

theorem desired_config_hwcksum_ne (cfg : UpfConfig) :
    desired_config { cfg with enable_hw_checksum := !cfg.enable_hw_checksum } ≠
      desired_config cfg := by
  simp [desired_config, render_bessd_config_file, core_ip_first_component]

theorem desired_config_dnn_ne (cfg : UpfConfig) (d : String) (hd : d ≠ cfg.dnn) :
    desired_config { cfg with dnn := d } ≠ desired_config cfg := by
  simp [desired_config, render_bessd_config_file, core_ip_first_component]
  exact hd

/-- A pass over a fully converged observed state changes nothing and issues
only the two unconditional route replace commands and the read-only iptables
probe; in particular it performs no write, no restart, no pod deletion and no
bootstrap execution. -/
theorem configure_converged (cfg : UpfConfig) (f : Nat → Bool) :
    configure_bessd_workload cfg f (convergedBessdState cfg) =
      { state := convergedBessdState cfg
      , effects := [Effect.routeReplaceDefault cfg.core_gateway_ip,
                    Effect.routeReplaceRan cfg.gnb_subnet cfg.access_gateway_ip,
                    Effect.iptablesCheck]
      , timedOut := false } := by
  simp [configure_bessd_workload, convergedBessdState, bessd_config_file_is_written,
    bessd_config_file_content_matches, runBess_marker, bessResultEffects,
    bessResultMarker, bessResultTimedOut]

/-- A first pass over the empty observed state writes everything and deletes
the pod (the recreate branch, since the absent document makes the checksum
check report a mismatch); the bootstrap command runs once and its marker — as
the layer, routes and rule — is lost with the replaced pod, so the next
invocation observes the fresh-container state in which only the config file
survives. -/
theorem configure_first_pass (cfg : UpfConfig) (f : Nat → Bool) (hf : f 0 = true) :
    configure_bessd_workload cfg f emptyBessdState =
      { state := recreatedBessdState cfg
      , effects :=
          [Effect.writeConfigFile (desired_config cfg),
           Effect.routeReplaceDefault cfg.core_gateway_ip,
           Effect.routeReplaceRan cfg.gnb_subnet cfg.access_gateway_ip,
           Effect.iptablesCheck, Effect.iptablesInsert,
           Effect.addLayer (bessd_pebble_layer cfg),
           Effect.deletePod,
           Effect.bessExec, Effect.writeMarker]
      , timedOut := false } := by
  simp [configure_bessd_workload, emptyBessdState, recreatedBessdState,
    pod_recreated_view, bessd_config_file_is_written,
    bessd_config_file_content_matches, hwcksum_config_matches_pod_config,
    runBess_first_success f hf, bessResultEffects, bessResultMarker,
    bessResultTimedOut, List.replicate]

/-- The invocation following a pod-deleting pass finds the fresh container:
the persisted config file already matches, so no write and no recreate, but
the pass re-adds the pebble layer, re-creates both routes and the firewall
rule, restarts the two services (routectl first), re-runs the bootstrap
command once and re-creates the marker, converging the state. -/
theorem configure_second_pass (cfg : UpfConfig) (f : Nat → Bool) (hf : f 0 = true) :
    configure_bessd_workload cfg f (recreatedBessdState cfg) =
      { state := convergedBessdState cfg
      , effects :=
          [Effect.routeReplaceDefault cfg.core_gateway_ip,
           Effect.routeReplaceRan cfg.gnb_subnet cfg.access_gateway_ip,
           Effect.iptablesCheck, Effect.iptablesInsert,
           Effect.addLayer (bessd_pebble_layer cfg),
           Effect.restart "routectl", Effect.restart "bessd",
           Effect.bessExec, Effect.writeMarker]
      , timedOut := false } := by
  simp [configure_bessd_workload, recreatedBessdState, convergedBessdState,
    bessd_config_file_is_written, bessd_config_file_content_matches,
    hwcksum_config_matches_pod_config, runBess_first_success f hf,
    bessResultEffects, bessResultMarker, bessResultTimedOut, List.replicate]

/-! Helper lemmas about the Multus attachment reconciler. -/

theorem hasNad_append (nads : List NetworkAttachmentDefinition)
    (d : NetworkAttachmentDefinition) (x : String) :
    hasNad (nads ++ [d]) x = (hasNad nads x || d.name == x) := by
  simp [hasNad]

theorem createMissingNads_mono :
    ∀ (ds nads : List NetworkAttachmentDefinition) (x : String),
      hasNad nads x = true → hasNad (createMissingNads nads ds).1 x = true
  | [], _, _, h => h
  | d :: ds, nads, x, h => by
    simp only [createMissingNads]
    by_cases hd : hasNad nads d.name = true
    · simp only [hd, if_true]
      exact createMissingNads_mono ds nads x h
    · simp only [hd, if_false, Bool.false_eq_true]
      exact createMissingNads_mono ds (nads ++ [d]) x (by simp [hasNad_append, h])

theorem createMissingNads_complete :
    ∀ (ds nads : List NetworkAttachmentDefinition) (d : NetworkAttachmentDefinition),
      d ∈ ds → hasNad (createMissingNads nads ds).1 d.name = true
  | [], _, _, h => by cases h
  | e :: ds, nads, d, h => by
    simp only [createMissingNads]
    rcases List.mem_cons.mp h with rfl | hmem
    · by_cases hd : hasNad nads d.name = true
      · simp only [hd, if_true]
        exact createMissingNads_mono ds nads d.name hd
      · simp only [hd, if_false, Bool.false_eq_true]
        exact createMissingNads_mono ds (nads ++ [d]) d.name (by simp [hasNad_append])
    · by_cases hd : hasNad nads e.name = true
      · simp only [hd, if_true]
        exact createMissingNads_complete ds nads d hmem
      · simp only [hd, if_false, Bool.false_eq_true]
        exact createMissingNads_complete ds (nads ++ [e]) d hmem

theorem createMissingNads_noop :
    ∀ (ds nads : List NetworkAttachmentDefinition),
      (∀ d ∈ ds, hasNad nads d.name = true) → createMissingNads nads ds = (nads, [])
  | [], _, _ => rfl
  | d :: ds, nads, h => by
    simp only [createMissingNads, h d (List.mem_cons_self d ds), if_true]
    exact createMissingNads_noop ds nads (fun e he => h e (List.mem_cons_of_mem d he))

theorem removeNads_noop :
    ∀ (ds nads : List NetworkAttachmentDefinition),
      (∀ d ∈ ds, hasNad nads d.name = false) → removeNads nads ds = (nads, [])
  | [], _, _ => rfl
  | d :: ds, nads, h => by
    simp only [removeNads, h d (List.mem_cons_self d ds), Bool.false_eq_true, if_false]
    exact removeNads_noop ds nads (fun e he => h e (List.mem_cons_of_mem d he))

theorem setNetAdminFirst_names :
    ∀ (ks : List K8sContainer) (c : String) (ks1 : List K8sContainer),
      setNetAdminFirst ks c = Except.ok ks1 →
      ks1.map K8sContainer.name = ks.map K8sContainer.name
  | [], c, ks1, h => by simp [setNetAdminFirst] at h
  | k :: ks, c, ks1, h => by
    simp only [setNetAdminFirst] at h
    by_cases hk : (k.name == c) = true
    · simp only [hk, if_true] at h
      cases h
      simp
    · simp only [hk, Bool.false_eq_true, if_false] at h
      cases hrec : setNetAdminFirst ks c with
      | error e => rw [hrec] at h; cases h
      | ok ks2 =>
        rw [hrec] at h
        cases h
        simp [setNetAdminFirst_names ks c ks2 hrec]

theorem setNetAdminFirst_capsOf_self :
    ∀ (ks : List K8sContainer) (c : String) (ks1 : List K8sContainer),
      setNetAdminFirst ks c = Except.ok ks1 →
      capsOf ks1 c = some ["NET_ADMIN"]
  | [], c, ks1, h => by simp [setNetAdminFirst] at h
  | k :: ks, c, ks1, h => by
    simp only [setNetAdminFirst] at h
    by_cases hk : (k.name == c) = true
    · simp only [hk, if_true] at h
      cases h
      simp [capsOf, List.find?, hk]
    · simp only [hk, Bool.false_eq_true, if_false] at h
      cases hrec : setNetAdminFirst ks c with
      | error e => rw [hrec] at h; cases h
      | ok ks2 =>
        rw [hrec] at h
        cases h
        simp only [capsOf, List.find?, hk]
        exact setNetAdminFirst_capsOf_self ks c ks2 hrec

theorem setNetAdminFirst_capsOf_other :
    ∀ (ks : List K8sContainer) (c : String) (ks1 : List K8sContainer) (x : String),
      setNetAdminFirst ks c = Except.ok ks1 → x ≠ c →
      capsOf ks1 x = capsOf ks x
  | [], c, ks1, x, h, _ => by simp [setNetAdminFirst] at h
  | k :: ks, c, ks1, x, h, hx => by
    simp only [setNetAdminFirst] at h
    by_cases hk : (k.name == c) = true
    · simp only [hk, if_true] at h
      cases h
      have hkx : (k.name == x) = false := by
        have : k.name = c := by simpa using hk
        subst this
        simpa using fun he => hx he.symm
      simp [capsOf, List.find?, hkx]
    · simp only [hk, Bool.false_eq_true, if_false] at h
      cases hrec : setNetAdminFirst ks c with
      | error e => rw [hrec] at h; cases h
      | ok ks2 =>
        rw [hrec] at h
        cases h
        by_cases hkx : (k.name == x) = true
        · simp [capsOf, List.find?, hkx]
        · simp only [capsOf, List.find?, hkx, Bool.false_eq_true, if_false]
          exact setNetAdminFirst_capsOf_other ks c ks2 x hrec hx

theorem applyNetAdmin_names :
    ∀ (caps : List String) (ks final : List K8sContainer),
      applyNetAdmin ks caps = Except.ok final →
      final.map K8sContainer.name = ks.map K8sContainer.name
  | [], ks, final, h => by
    simp only [applyNetAdmin] at h
    cases h
    rfl
  | c :: rest, ks, final, h => by
    simp only [applyNetAdmin] at h
    cases hset : setNetAdminFirst ks c with
    | error e => rw [hset] at h; cases h
    | ok ks1 =>
      rw [hset] at h
      rw [applyNetAdmin_names rest ks1 final h]
      exact setNetAdminFirst_names ks c ks1 hset

theorem applyNetAdmin_capsOf_notmem :
    ∀ (caps : List String) (ks final : List K8sContainer) (x : String),
      applyNetAdmin ks caps = Except.ok final → x ∉ caps →
      capsOf final x = capsOf ks x
  | [], ks, final, x, h, _ => by
    simp only [applyNetAdmin] at h
    cases h
    rfl
  | c :: rest, ks, final, x, h, hx => by
    simp only [applyNetAdmin] at h
    cases hset : setNetAdminFirst ks c with
    | error e => rw [hset] at h; cases h
    | ok ks1 =>
      rw [hset] at h
      have hxc : x ≠ c := fun he => hx (he ▸ List.mem_cons_self c rest)
      have hxr : x ∉ rest := fun he => hx (List.mem_cons_of_mem c he)
      rw [applyNetAdmin_capsOf_notmem rest ks1 final x h hxr]
      exact setNetAdminFirst_capsOf_other ks c ks1 x hset hxc

theorem applyNetAdmin_capsOf_mem :
    ∀ (caps : List String) (ks final : List K8sContainer) (c : String),
      applyNetAdmin ks caps = Except.ok final → c ∈ caps →
      capsOf final c = some ["NET_ADMIN"]
  | [], _, _, c, _, hc => by cases hc
  | e :: rest, ks, final, c, h, hc => by
    simp only [applyNetAdmin] at h
    cases hset : setNetAdminFirst ks e with
    | error er => rw [hset] at h; cases h
    | ok ks1 =>
      rw [hset] at h
      rcases List.mem_cons.mp hc with rfl | hmem
      · by_cases hcr : c ∈ rest
        · exact applyNetAdmin_capsOf_mem rest ks1 final c h hcr
        · rw [applyNetAdmin_capsOf_notmem rest ks1 final c h hcr]
          exact setNetAdminFirst_capsOf_self ks c ks1 hset
      · exact applyNetAdmin_capsOf_mem rest ks1 final c h hmem

theorem capsAllNetAdmin_ok_true (ks : List K8sContainer) :
    ∀ caps : List String, (∀ c ∈ caps, capsOf ks c = some ["NET_ADMIN"]) →
      capsAllNetAdmin ks caps = Except.ok true
  | [], _ => rfl
  | c :: rest, h => by
    have hc := h c (List.mem_cons_self c rest)
    simp only [capsOf] at hc
    cases hfind : ks.find? fun k => k.name == c with
    | none => rw [hfind] at hc; cases hc
    | some k =>
      rw [hfind] at hc
      simp only [Option.map] at hc
      have hk : k.capabilities_add = ["NET_ADMIN"] := by injection hc
      have hrest := capsAllNetAdmin_ok_true ks rest (fun e he => h e (List.mem_cons_of_mem c he))
      simp [capsAllNetAdmin, hfind, hk, hrest]

theorem patch_statefulset_is_patched (tmpl : PodTemplate) (annots : List AnnotationDict)
    (caps : List String) (tmpl2 : PodTemplate) (effs : List MultusEffect)
    (hne : annots ≠ [])
    (h : patch_statefulset tmpl annots caps = Except.ok (tmpl2, effs)) :
    statefulset_is_patched tmpl2 annots caps = Except.ok true := by
  simp only [patch_statefulset] at h
  rw [if_neg (by simpa using hne)] at h
  cases happ : applyNetAdmin tmpl.containers caps with
  | error e => rw [happ] at h; cases h
  | ok ks =>
    rw [happ] at h
    cases h
    simp only [statefulset_is_patched, if_pos rfl]
    exact capsAllNetAdmin_ok_true ks caps
      (fun c hc => applyNetAdmin_capsOf_mem caps tmpl.containers ks c happ hc)

/-- Whatever the first call of the Multus reconciler did, the second call on
the resulting state performs zero writes. -/
theorem multus_patch_second_noop (lib : MultusLib) (st st1 : MultusState)
    (effs : List MultusEffect)
    (h : multus_patch lib st = Except.ok (st1, effs)) :
    multus_patch lib st1 = Except.ok (st1, []) := by
  simp only [multus_patch] at h ⊢
  cases hsp : statefulset_is_patched st.statefulset lib.network_annotations
      lib.containers_requiring_net_admin_capability with
  | error e => rw [hsp] at h; cases h
  | ok b =>
    rw [hsp] at h
    cases b with
    | true =>
      cases h
      have hnads : ∀ d ∈ lib.network_attachment_definitions,
          hasNad (createMissingNads st.nads lib.network_attachment_definitions).1 d.name
            = true :=
        fun d hd => createMissingNads_complete lib.network_attachment_definitions st.nads d hd
      rw [createMissingNads_noop lib.network_attachment_definitions _ hnads]
      rw [hsp]
    | false =>
      cases hpatch : patch_statefulset st.statefulset lib.network_annotations
          lib.containers_requiring_net_admin_capability with
      | error e => rw [hpatch] at h; cases h
      | ok p =>
        obtain ⟨tmpl2, eff2⟩ := p
        rw [hpatch] at h
        cases h
        have hnads : ∀ d ∈ lib.network_attachment_definitions,
            hasNad (createMissingNads st.nads lib.network_attachment_definitions).1 d.name
              = true :=
          fun d hd =>
            createMissingNads_complete lib.network_attachment_definitions st.nads d hd
        rw [createMissingNads_noop lib.network_attachment_definitions _ hnads]
        by_cases hann : lib.network_annotations = []
        · rw [hann] at hsp
          simp only [patch_statefulset, hann, List.isEmpty_nil, if_true,
            Except.ok.injEq, Prod.mk.injEq] at hpatch
          obtain ⟨h1, h2⟩ := hpatch
          subst h1
          subst h2
          simp [hsp, patch_statefulset, hann]
        · have hp := patch_statefulset_is_patched st.statefulset lib.network_annotations
            lib.containers_requiring_net_admin_capability tmpl2 eff2 hann hpatch
          simp [hp]

/-- The capability gate only ever sets a Blocked status. -/
theorem is_cpu_compatible_blocked (cfg : UpfConfig) (n : NodeFacts) (s : UnitStatus)
    (h : is_cpu_compatible cfg n = some s) : ∃ msg, s = UnitStatus.blocked msg := by
  unfold is_cpu_compatible at h
  repeat' split at h
  all_goals (cases h <;> exact ⟨_, rfl⟩)

/-! The claims. -/

/-- C1 counterexample: on the first pass from the empty observed state (no
config file) with desired mode=normal / checksum=false, the Configuration
Reconciler deletes the pod and does NOT restart the two services, contrary to
the claimed scenario: the absent stored document makes the checksum comparison
report a mismatch, which takes the pod-recreation branch. -/
theorem c1_first_pass_deletes_pod_counterexample :
    Effect.deletePod
        ∈ (configure_bessd_workload cfg0 (fun _ => true) emptyBessdState).effects
    ∧ Effect.restart "routectl"
        ∉ (configure_bessd_workload cfg0 (fun _ => true) emptyBessdState).effects
    ∧ Effect.restart "bessd"
        ∉ (configure_bessd_workload cfg0 (fun _ => true) emptyBessdState).effects := by
  decide

/-- C1 (amended): end-to-end from the empty observed state with desired
{mode=normal, checksum=false}: the first pass writes the config file, issues
both route replaces, inserts the firewall rule, adds the supervision
declaration and DELETES THE POD (instead of restarting the two services,
because the absent stored document reads as a checksum mismatch); the
bootstrap command runs once against the doomed container, so its marker — as
the layer, routes and rule — is lost with the replaced pod.  The next
invocation, on the recreated pod, finds the persisted config file unchanged
but re-adds the layer, re-creates routes and rule, restarts the two services
and re-runs the bootstrap once, converging the state; only the invocation
after that performs zero writes (the two idempotent route replaces and the
read-only firewall probe) and skips the bootstrap command. -/
theorem c1_end_to_end_first_and_second_pass (cfg : UpfConfig) (f : Nat → Bool)
    (hmode : cfg.upf_mode = UpfMode.normal)
    (hck : cfg.enable_hw_checksum = false)
    (hf : f 0 = true) :
    configure_bessd_workload cfg f emptyBessdState =
      { state := recreatedBessdState cfg
      , effects :=
          [Effect.writeConfigFile (desired_config cfg),
           Effect.routeReplaceDefault cfg.core_gateway_ip,
           Effect.routeReplaceRan cfg.gnb_subnet cfg.access_gateway_ip,
           Effect.iptablesCheck, Effect.iptablesInsert,
           Effect.addLayer (bessd_pebble_layer cfg),
           Effect.deletePod,
           Effect.bessExec, Effect.writeMarker]
      , timedOut := false }
    ∧ configure_bessd_workload cfg f (recreatedBessdState cfg) =
      { state := convergedBessdState cfg
      , effects :=
          [Effect.routeReplaceDefault cfg.core_gateway_ip,
           Effect.routeReplaceRan cfg.gnb_subnet cfg.access_gateway_ip,
           Effect.iptablesCheck, Effect.iptablesInsert,
           Effect.addLayer (bessd_pebble_layer cfg),
           Effect.restart "routectl", Effect.restart "bessd",
           Effect.bessExec, Effect.writeMarker]
      , timedOut := false }
    ∧ configure_bessd_workload cfg f (convergedBessdState cfg) =
      { state := convergedBessdState cfg
      , effects := [Effect.routeReplaceDefault cfg.core_gateway_ip,
                    Effect.routeReplaceRan cfg.gnb_subnet cfg.access_gateway_ip,
                    Effect.iptablesCheck]
      , timedOut := false } :=
  ⟨configure_first_pass cfg f hf, configure_second_pass cfg f hf,
   configure_converged cfg f⟩

/-- C1 witness: the amended theorem applied at the concrete default
configuration. -/
theorem c1_end_to_end_witness :
    (configure_bessd_workload cfg0 (fun _ => true) emptyBessdState).state
      = recreatedBessdState cfg0 :=
  congrArg ConfigureResult.state
    (c1_end_to_end_first_and_second_pass cfg0 (fun _ => true) rfl rfl rfl).1

/-- C2 counterexample: the route-replace command is issued even when the
observed default route already equals the desired one, so this write path is
not preceded by a read and a detected difference — the claimed global
invariant fails for the route commands. -/
theorem c2_unconditional_route_counterexample :
    (convergedBessdState cfg0).default_route = some "192.168.250.1"
    ∧ Effect.routeReplaceDefault "192.168.250.1"
        ∈ (configure_bessd_workload cfg0 (fun _ => true)
            (convergedBessdState cfg0)).effects := by
  refine ⟨rfl, ?_⟩
  rw [configure_converged cfg0 (fun _ => true)]
  exact List.mem_cons_self _ _

/-- C2 (amended): every mutation other than the two ip-route commands is
preceded by a read of current state and a detected difference, while the two
route replace commands are issued unconditionally on every pass (their safety
rests on replace idempotence, not on a guard): a pass over a fully converged
observed state issues exactly the two route replaces plus the read-only
firewall probe and leaves the state unchanged, and a second invocation of the
attachment reconciler issues zero writes. -/
theorem c2_guarded_writes_except_routes (cfg : UpfConfig) (f : Nat → Bool) :
    configure_bessd_workload cfg f (convergedBessdState cfg) =
      { state := convergedBessdState cfg
      , effects := [Effect.routeReplaceDefault cfg.core_gateway_ip,
                    Effect.routeReplaceRan cfg.gnb_subnet cfg.access_gateway_ip,
                    Effect.iptablesCheck]
      , timedOut := false }
    ∧ (∀ (lib : MultusLib) (st st1 : MultusState) (effs : List MultusEffect),
        multus_patch lib st = Except.ok (st1, effs) →
        multus_patch lib st1 = Except.ok (st1, [])) :=
  ⟨configure_converged cfg f,
   fun lib st st1 effs h => multus_patch_second_noop lib st st1 effs h⟩

/-- C2 witness: the amended theorem applied to the concrete single-definition
reconciler configuration, with the first-pass hypothesis discharged by
computation. -/
theorem c2_guarded_writes_witness :
    multus_patch c2Lib c2St1 = Except.ok (c2St1, []) :=
  (c2_guarded_writes_except_routes cfg0 (fun _ => true)).2 c2Lib c2St0 c2St1
    [MultusEffect.createNad { name := "n2-net", config := "cfg-n2" },
     MultusEffect.patchStatefulSet] (by rfl)

/-- C3: when only the checksum flag changed between passes (the stored
document is the rendering of the same configuration with the opposite flag,
the supervision declaration already matches), the reconciler takes only the
pod-replacement path: the dispatch effects are exactly [deletePod] — the pod
is deleted and neither service is restarted, replacement superseding
restart. -/
theorem c3_checksum_change_takes_recreate_path (cfg : UpfConfig) (f : Nat → Bool)
    (st : BessdState)
    (hfile : st.config_file =
      some (desired_config { cfg with enable_hw_checksum := !cfg.enable_hw_checksum }))
    (hplan : st.plan_services = some (bessd_pebble_layer cfg)) :
    (configure_bessd_workload cfg f st).effects.filter Effect.isRestartOrDelete =
      [Effect.deletePod] := by
  obtain ⟨cf, ps, dr, rr, ir, mk⟩ := st
  simp only at hfile hplan
  subst hfile hplan
  have h1 : bessd_config_file_content_matches (desired_config cfg)
      ⟨some (desired_config { cfg with enable_hw_checksum := !cfg.enable_hw_checksum }),
       some (bessd_pebble_layer cfg), dr, rr, ir, mk⟩ = false := by
    simp [bessd_config_file_content_matches, desired_config_hwcksum_ne cfg]
  have h2 : hwcksum_config_matches_pod_config cfg
      ⟨some (desired_config { cfg with enable_hw_checksum := !cfg.enable_hw_checksum }),
       some (bessd_pebble_layer cfg), dr, rr, ir, mk⟩ = true := by
    simp [hwcksum_config_matches_pod_config, desired_config, render_bessd_config_file]
  simp [configure_bessd_workload, bessd_config_file_is_written, h1, h2,
    List.filter_append, Effect.isRestartOrDelete, bessResultEffects_filter,
    List.filter_cons]
  cases ir <;> simp [Effect.isRestartOrDelete]

/-- C3 witness: the theorem applied at the concrete default configuration and
the concrete stored-old-checksum state. -/
theorem c3_checksum_change_witness :
    (configure_bessd_workload cfg0 (fun _ => true) c3St).effects.filter
      Effect.isRestartOrDelete = [Effect.deletePod] :=
  c3_checksum_change_takes_recreate_path cfg0 (fun _ => true) c3St rfl rfl

/-- C4: when only the DNN changed between passes (the stored document is the
rendering of the same configuration with a different DNN, the supervision
declaration already matches), the reconciler takes only the restart path and
restarts routectl first and bessd second: the dispatch effects are exactly
[restart routectl, restart bessd] in that order, and no pod deletion
occurs. -/
theorem c4_dnn_change_restarts_in_order (cfg : UpfConfig) (f : Nat → Bool)
    (st : BessdState) (d : String)
    (hd : d ≠ cfg.dnn)
    (hfile : st.config_file = some (desired_config { cfg with dnn := d }))
    (hplan : st.plan_services = some (bessd_pebble_layer cfg)) :
    (configure_bessd_workload cfg f st).effects.filter Effect.isRestartOrDelete =
      [Effect.restart "routectl", Effect.restart "bessd"] := by
  obtain ⟨cf, ps, dr, rr, ir, mk⟩ := st
  simp only at hfile hplan
  subst hfile hplan
  have h1 : bessd_config_file_content_matches (desired_config cfg)
      ⟨some (desired_config { cfg with dnn := d }),
       some (bessd_pebble_layer cfg), dr, rr, ir, mk⟩ = false := by
    simp [bessd_config_file_content_matches, desired_config_dnn_ne cfg d hd]
  have h2 : hwcksum_config_matches_pod_config cfg
      ⟨some (desired_config { cfg with dnn := d }),
       some (bessd_pebble_layer cfg), dr, rr, ir, mk⟩ = false := by
    simp [hwcksum_config_matches_pod_config, desired_config, render_bessd_config_file]
  simp [configure_bessd_workload, bessd_config_file_is_written, h1, h2,
    List.filter_append, Effect.isRestartOrDelete, bessResultEffects_filter,
    List.filter_cons]
  cases ir <;> simp [Effect.isRestartOrDelete]

/-- C4 witness: the theorem applied at the concrete default configuration and
the concrete stored-old-DNN state. -/
theorem c4_dnn_change_witness :
    (configure_bessd_workload cfg0 (fun _ => true) c4St).effects.filter
      Effect.isRestartOrDelete =
      [Effect.restart "routectl", Effect.restart "bessd"] :=
  c4_dnn_change_restarts_in_order cfg0 (fun _ => true) c4St "ims" (by decide) rfl rfl

/-- C5: the Bootstrap Runner never executes the command when the marker exists
at entry; when every execution fails it raises the timeout error after
exhausting the 300-unit budget (151 attempts at a 2-unit backoff) with no
marker created; and the marker is only ever created right after a successful
command execution. -/
theorem c5_bootstrap_runner (f : Nat → Bool) :
    run_bess_configuration f true = BessResult.done 0 false
    ∧ ((∀ n, f n = false) →
        run_bess_configuration f false = BessResult.timeoutError 151)
    ∧ (∀ (marker : Bool) (k : Nat),
        run_bess_configuration f marker = BessResult.done k true →
        0 < k ∧ f (k - 1) = true) := by
  refine ⟨runBess_marker f, fun h => ?_, fun marker k h => ?_⟩
  · show runBessLoop f false 0 151 = BessResult.timeoutError 151
    rw [runBess_allFail f h 151 0]
  · have h2 : runBessLoop f marker 0 151 = BessResult.done k true := h
    have := runBessLoop_done_true f 151 marker 0 k h2
    exact ⟨by omega, this.2⟩

/-- C5 witness: the all-failures branch of the theorem at the constantly
failing command. -/
theorem c5_bootstrap_runner_witness :
    run_bess_configuration (fun _ => false) false = BessResult.timeoutError 151 :=
  (c5_bootstrap_runner (fun _ => false)).2.1 (fun _ => rfl)

/-- C6: the status verdict is the first failing check in priority order: with
all gates passed and liveness {bessd: false, others: true} the verdict is
Waiting citing the bessd service and never Active; whenever the capability
gate fails, its Blocked status is surfaced regardless of liveness or the other
gates; a failing Multus or storage gate likewise preempts the liveness
checks. -/
theorem c6_status_priority (cfg : UpfConfig) (n : NodeFacts) (l : Liveness) :
    (is_cpu_compatible cfg n = none →
      bessd_pebble_ready_status cfg n true true
          { bessd := false, routectl := true, pfcp_agent := true }
        = UnitStatus.waiting "Waiting for bessd service to run"
      ∧ bessd_pebble_ready_status cfg n true true
          { bessd := false, routectl := true, pfcp_agent := true } ≠ UnitStatus.active)
    ∧ (∀ s : UnitStatus, is_cpu_compatible cfg n = some s →
        (∀ mr sa : Bool, bessd_pebble_ready_status cfg n mr sa l = s)
        ∧ ∃ msg, s = UnitStatus.blocked msg)
    ∧ (is_cpu_compatible cfg n = none → ∀ sa : Bool,
        bessd_pebble_ready_status cfg n false sa l
          = UnitStatus.waiting "Waiting for Multus to be ready")
    ∧ (is_cpu_compatible cfg n = none →
        bessd_pebble_ready_status cfg n true false l
          = UnitStatus.waiting "Waiting for storage to be attached") := by
  refine ⟨fun h => ⟨?_, ?_⟩, fun s hs =>
      ⟨fun mr sa => ?_, is_cpu_compatible_blocked cfg n s hs⟩,
    fun h sa => ?_, fun h => ?_⟩
  · simp [bessd_pebble_ready_status, h, set_unit_status]
  · simp [bessd_pebble_ready_status, h, set_unit_status]
  · simp [bessd_pebble_ready_status, hs]
  · simp [bessd_pebble_ready_status, h]
  · simp [bessd_pebble_ready_status, h]

/-- C6 witness: the theorem applied at a passing node (Waiting for bessd) and
at a node missing the required CPU extensions (Blocked with the capability
reason, despite failing liveness). -/
theorem c6_status_priority_witness :
    bessd_pebble_ready_status cfg0 goodNode true true
        { bessd := false, routectl := true, pfcp_agent := true }
      = UnitStatus.waiting "Waiting for bessd service to run"
    ∧ bessd_pebble_ready_status cfg0 badNode true true
        { bessd := false, routectl := false, pfcp_agent := false }
      = UnitStatus.blocked
          "Please use a CPU that has the following capabilities: avx2, rdrand" :=
  ⟨((c6_status_priority cfg0 goodNode
      { bessd := false, routectl := true, pfcp_agent := true }).1 (by decide)).1,
   ((c6_status_priority cfg0 badNode
      { bessd := false, routectl := false, pfcp_agent := false }).2.1
      (UnitStatus.blocked
        "Please use a CPU that has the following capabilities: avx2, rdrand")
      (by decide)).1 true true⟩

/-- C7: Attachment Reconciler idempotence: whatever a first invocation with
given desired definitions, annotations and capability containers did to the
cluster state, a second invocation on the resulting state issues zero writes
(no create call and no statefulset patch call). -/
theorem c7_attachment_reconciler_idempotent (lib : MultusLib) (st st1 : MultusState)
    (effs : List MultusEffect)
    (h : multus_patch lib st = Except.ok (st1, effs)) :
    multus_patch lib st1 = Except.ok (st1, []) :=
  multus_patch_second_noop lib st st1 effs h

/-- C7 witness: the theorem applied at the concrete two-definition reconciler
configuration, with the first pass evaluated by computation. -/
theorem c7_attachment_reconciler_witness :
    multus_patch c7Lib c7St1 = Except.ok (c7St1, []) :=
  c7_attachment_reconciler_idempotent c7Lib c7St0 c7St1
    [MultusEffect.createNad { name := "access-net", config := "cfg-a" },
     MultusEffect.createNad { name := "core-net", config := "cfg-c" },
     MultusEffect.patchStatefulSet] (by rfl)

/-- C8 counterexample: patching a statefulset whose container already carries
the SYS_TIME capability REPLACES the capability list with exactly [NET_ADMIN]:
the pre-existing capability is dropped, contradicting the claim that the patch
appends the capability leaving pre-existing capabilities unchanged. -/
theorem c8_capability_overwrite_counterexample :
    patch_statefulset c8Tmpl c8Annots ["bessd"]
      = Except.ok (c8Patched, [MultusEffect.patchStatefulSet])
    ∧ capsOf c8Tmpl.containers "bessd" = some ["SYS_TIME"]
    ∧ capsOf c8Patched.containers "bessd" = some ["NET_ADMIN"] :=
  ⟨rfl, rfl, rfl⟩

/-- C8 (amended): when the statefulset needs patching, the issued merge patch
sets the network-annotation field and, for each named container, sets the
capability list to EXACTLY [NET_ADMIN] — replacing any pre-existing
capabilities rather than appending — while the other template annotations, the
container names and order, and the capabilities of all containers not named
are left unchanged, and exactly one patch is issued. -/
theorem c8_patch_replaces_capability_list (tmpl : PodTemplate)
    (annots : List AnnotationDict) (caps : List String)
    (tmpl2 : PodTemplate) (effs : List MultusEffect)
    (hne : annots ≠ [])
    (h : patch_statefulset tmpl annots caps = Except.ok (tmpl2, effs)) :
    tmpl2.networks = some annots
    ∧ tmpl2.other_annotations = tmpl.other_annotations
    ∧ tmpl2.containers.map K8sContainer.name = tmpl.containers.map K8sContainer.name
    ∧ (∀ c ∈ caps, capsOf tmpl2.containers c = some ["NET_ADMIN"])
    ∧ (∀ x, x ∉ caps → capsOf tmpl2.containers x = capsOf tmpl.containers x)
    ∧ effs = [MultusEffect.patchStatefulSet] := by
  simp only [patch_statefulset] at h
  rw [if_neg (by simpa using hne)] at h
  cases happ : applyNetAdmin tmpl.containers caps with
  | error e => rw [happ] at h; cases h
  | ok ks =>
    rw [happ] at h
    cases h
    exact ⟨rfl, rfl, applyNetAdmin_names caps tmpl.containers ks happ,
      fun c hc => applyNetAdmin_capsOf_mem caps tmpl.containers ks c happ hc,
      fun x hx => applyNetAdmin_capsOf_notmem caps tmpl.containers ks x happ hx, rfl⟩

/-- C8 witness: the amended theorem applied at the concrete template with a
pre-existing capability. -/
theorem c8_patch_witness :
    c8Patched.networks = some c8Annots
    ∧ capsOf c8Patched.containers "bessd" = some ["NET_ADMIN"] :=
  ⟨(c8_patch_replaces_capability_list c8Tmpl c8Annots ["bessd"] c8Patched
      [MultusEffect.patchStatefulSet] (by decide) (by rfl)).1,
   (c8_patch_replaces_capability_list c8Tmpl c8Annots ["bessd"] c8Patched
      [MultusEffect.patchStatefulSet] (by decide) (by rfl)).2.2.2.1 "bessd"
      (by decide)⟩

/-- C9: teardown of attachments that do not exist (every existence check
reports NotFound) performs no delete call and returns normally with the state
unchanged. -/
theorem c9_teardown_missing_nad_noop (lib : MultusLib) (st : MultusState)
    (h : ∀ d ∈ lib.network_attachment_definitions, hasNad st.nads d.name = false) :
    multus_on_remove lib st = (st, []) := by
  simp only [multus_on_remove]
  rw [removeNads_noop lib.network_attachment_definitions st.nads h]

/-- C9 witness: the theorem applied at a concrete state missing the desired
definition. -/
theorem c9_teardown_witness : multus_on_remove c9Lib c9St = (c9St, []) :=
  c9_teardown_missing_nad_noop c9Lib c9St (by decide)

/-- C10: _hwcksum_config_matches_pod_config returns true (the mismatch signal)
whenever the stored document is absent, and in general exactly when the stored
hwcksum value differs from the desired flag — despite the name suggesting the
opposite; consequently the first configuration of a container with no stored
document takes the pod-recreation branch (the dispatch effects are exactly
[deletePod]) rather than a plain restart. -/
theorem c10_hwcksum_mismatch_signal (cfg : UpfConfig) (st : BessdState)
    (f : Nat → Bool) :
    (st.config_file = none → hwcksum_config_matches_pod_config cfg st = true)
    ∧ (hwcksum_config_matches_pod_config cfg st = true ↔
        st.config_file.map RenderedConfig.hwcksum ≠ some cfg.enable_hw_checksum)
    ∧ (st.config_file = none →
        (configure_bessd_workload cfg f st).effects.filter Effect.isRestartOrDelete
          = [Effect.deletePod]) := by
  refine ⟨fun h => ?_, ?_, fun hfile => ?_⟩
  · simp [hwcksum_config_matches_pod_config, h]
  · cases hcf : st.config_file with
    | none => simp [hwcksum_config_matches_pod_config, hcf]
    | some doc => simp [hwcksum_config_matches_pod_config, hcf, bne_iff_ne]
  · obtain ⟨cf, ps, dr, rr, ir, mk⟩ := st
    simp only at hfile
    subst hfile
    simp [configure_bessd_workload, bessd_config_file_is_written,
      hwcksum_config_matches_pod_config, List.filter_append, Effect.isRestartOrDelete,
      bessResultEffects_filter, List.filter_cons]
    cases ir <;>
      by_cases hps : ps = some (bessd_pebble_layer cfg) <;>
        simp [hps, Effect.isRestartOrDelete]

/-- C10 witness: the theorem applied at the default configuration and the
empty observed state. -/
theorem c10_hwcksum_witness :
    hwcksum_config_matches_pod_config cfg0 emptyBessdState = true
    ∧ (configure_bessd_workload cfg0 (fun _ => true) emptyBessdState).effects.filter
        Effect.isRestartOrDelete = [Effect.deletePod] :=
  ⟨(c10_hwcksum_mismatch_signal cfg0 emptyBessdState (fun _ => true)).1 rfl,
   (c10_hwcksum_mismatch_signal cfg0 emptyBessdState (fun _ => true)).2.2 rfl⟩

end Upf
